import Mathlib

/-!
Shallow embedding of the locator-ranking and element-identification engine of
the locatorlabs-mcp repository (TypeScript sources `src/tools/analyze-page.ts`,
the get-locators tool, and `src/core/locator-engine.ts`).

Strings are modelled as Lean `String`s (lists of characters); JavaScript string
operations used by the sources (`toLowerCase`, `includes`, `split(/\s+/)`,
`replace`, `substring`) are given explicit executable models below.
`Array.prototype.sort` with a numeric comparator is stable in JavaScript, so it
is modelled by the stable `List.insertionSort` with the corresponding total
preorder.  Browser-bound behaviour (DOM queries, Playwright locator
resolution) is out of scope: functions that consume it take the extracted
element records, or the parse-and-count outcome, as explicit inputs.
-/

/-- Character class of the JS regex `\s` as used by `split(/\s+/)`
(restricted to the ASCII whitespace characters). -/
def isWsChar (c : Char) : Bool :=
  c == ' ' || c == '\t' || c == '\n' || c == '\r' || c == '\x0b' || c == '\x0c'

/-- Worker for `splitWS`: walks the characters, collapsing each maximal run of
whitespace into a single separator, and keeps the (possibly empty) fragments
between separators, exactly as JS `String.prototype.split(/\s+/)` does. -/
def splitWSGo (acc : List Char) (lastWs : Bool) : List Char → List String
  | [] => [String.mk acc.reverse]
  | c :: cs =>
    if isWsChar c then
      if lastWs then splitWSGo acc true cs
      else String.mk acc.reverse :: splitWSGo [] true cs
    else splitWSGo (c :: acc) false cs

/-- JS `s.split(/\s+/)`: split on maximal whitespace runs, keeping leading and
trailing empty fragments, and returning `[""]` on the empty string. -/
def splitWS (s : String) : List String := splitWSGo [] false s.data

/-- JS `s.toLowerCase()` (ASCII model). -/
def lowerStr (s : String) : String := String.mk (s.data.map Char.toLower)

/-- Does the first character list start the second one? -/
def startsWithChars : List Char → List Char → Bool
  | [], _ => true
  | _ :: _, [] => false
  | a :: as, b :: bs => a == b && startsWithChars as bs

/-- Is the first character list a contiguous sublist of the second one? -/
def isSubChars (needle : List Char) : List Char → Bool
  | [] => startsWithChars needle []
  | b :: bs => startsWithChars needle (b :: bs) || isSubChars needle bs

/-- JS `hay.includes(needle)`. -/
def includesJS (hay needle : String) : Bool := isSubChars needle.data hay.data

/-- JS truthiness of an optional string attribute: `undefined` and the empty
string are falsy. -/
def truthyStr : Option String → Option String
  | some s => if s = "" then none else some s
  | none => none

/-- JS `a || b` where `a` is an optional string and `b` is already optional. -/
def jsOr (a b : Option String) : Option String :=
  match truthyStr a with
  | some s => some s
  | none => b

/-- One interactive element snapshot (`ElementInfo` in the sources).  All
attribute fields are optional except the tag name and the derived
`xpath`/`selector` strings. -/
structure ElementInfo where
  tagName : String
  id : Option String := none
  name : Option String := none
  className : Option String := none
  type : Option String := none
  placeholder : Option String := none
  text : Option String := none
  ariaLabel : Option String := none
  role : Option String := none
  testId : Option String := none
  href : Option String := none
  title : Option String := none
  value : Option String := none
  xpath : String
  selector : String
deriving DecidableEq

/-- One proposed locator (`LocatorResult` in the sources). -/
structure LocatorResult where
  type : String
  locator : String
  reliability : Nat
  description : String
deriving DecidableEq

/-- One Selenium locator triple (`SeleniumLocator` in the get-locators tool). -/
structure SeleniumLocator where
  java : String
  python : String
  csharp : String
deriving DecidableEq

/-- Result shape of `LocatorEngine.validateLocator`. -/
structure ValidationResult where
  isValid : Bool
  matchCount : Nat
  isUnique : Bool
  suggestions : List String
deriving DecidableEq

/-- `MAX_TEXT_LENGTH` from `analyze-page.ts` and the get-locators tool. -/
def MAX_TEXT_LENGTH : Nat := 100

/-- `MAX_ELEMENTS` from `analyze-page.ts`. -/
def MAX_ELEMENTS : Nat := 50

/-- `MAX_LOCATORS_PER_ELEMENT` from `analyze-page.ts`. -/
def MAX_LOCATORS_PER_ELEMENT : Nat := 5

/-- The single-quote character. -/
def quoteChar : Char := Char.ofNat 39

/-- The backslash character. -/
def backslashChar : Char := Char.ofNat 92

/-- JS `str.replace(/c/g, r)` for a single-character pattern `c`. -/
def replaceChar (c : Char) (r : List Char) : List Char → List Char
  | [] => []
  | x :: xs => (if x = c then r else [x]) ++ replaceChar c r xs

/-- `AnalyzePageTool.escape` (identical in the get-locators tool): double every
backslash, escape every single quote, truncate to `MAX_TEXT_LENGTH`. -/
def escape (s : String) : String :=
  String.mk ((replaceChar quoteChar [backslashChar, quoteChar]
    (replaceChar backslashChar [backslashChar, backslashChar] s.data)).take MAX_TEXT_LENGTH)

/-- The `inputRoles` lookup object of `AnalyzePageTool.inferRole`, including
the trailing `|| "textbox"` default. -/
def inputRoleLookup (key : String) : String :=
  if key = "submit" then "button"
  else if key = "button" then "button"
  else if key = "checkbox" then "checkbox"
  else if key = "radio" then "radio"
  else if key = "text" then "textbox"
  else if key = "email" then "textbox"
  else if key = "password" then "textbox"
  else if key = "search" then "searchbox"
  else if key = "number" then "spinbutton"
  else "textbox"

/-- The lookup key `type || "text"` used for inputs by
`AnalyzePageTool.inferRole`: the lowercased type attribute, or `text` when it
is absent or empty. -/
def jsTypeKey (el : ElementInfo) : String :=
  match el.type.map lowerStr with
  | some s => if s = "" then "text" else s
  | none => "text"

/-- `AnalyzePageTool.inferRole`: the fixed tag/type to ARIA-role lookup. -/
def inferRole (el : ElementInfo) : Option String :=
  let tag := lowerStr el.tagName
  if tag = "button" then some "button"
  else if tag = "a" then some "link"
  else if tag = "select" then some "combobox"
  else if tag = "textarea" then some "textbox"
  else if tag = "img" then some "img"
  else if tag = "input" then some (inputRoleLookup (jsTypeKey el))
  else none

/-- The testId candidate pushed by `AnalyzePageTool.generateLocators`. -/
def testIdCandidate (t : String) : LocatorResult :=
  { type := "testId", locator := "getByTestId(\x27" ++ t ++ "\x27)",
    reliability := 98, description := "Best - explicitly set for testing" }

/-- The role-with-name candidate of `AnalyzePageTool.generateLocators`. -/
def roleNamedCandidate (role name : String) : LocatorResult :=
  { type := "role",
    locator := "getByRole(\x27" ++ role ++ "\x27, \x7b name: \x27" ++ escape name ++ "\x27 \x7d)",
    reliability := 95, description := "Playwright recommended - accessible and stable" }

/-- The bare-role candidate of `AnalyzePageTool.generateLocators`. -/
def roleBareCandidate (role : String) : LocatorResult :=
  { type := "role", locator := "getByRole(\x27" ++ role ++ "\x27)",
    reliability := 70, description := "Role without name - may match multiple elements" }

/-- The aria-label candidate of `AnalyzePageTool.generateLocators`. -/
def labelCandidate (l : String) : LocatorResult :=
  { type := "label", locator := "getByLabel(\x27" ++ escape l ++ "\x27)",
    reliability := 90, description := "Accessible label-based locator" }

/-- The placeholder candidate of `AnalyzePageTool.generateLocators`. -/
def placeholderCandidate (p : String) : LocatorResult :=
  { type := "placeholder", locator := "getByPlaceholder(\x27" ++ escape p ++ "\x27)",
    reliability := 85, description := "Good for form inputs" }

/-- The visible-text candidate of `AnalyzePageTool.generateLocators`. -/
def textCandidate (t : String) : LocatorResult :=
  { type := "text", locator := "getByText(\x27" ++ escape t ++ "\x27)",
    reliability := 75, description := "Text content - may break if text changes" }

/-- The id candidate of `AnalyzePageTool.generateLocators`. -/
def idCandidate (i : String) : LocatorResult :=
  { type := "id", locator := "locator(\x27#" ++ i ++ "\x27)",
    reliability := 90, description := "ID selector - stable if ID is meaningful" }

/-- The css candidate of `AnalyzePageTool.generateLocators`. -/
def cssCandidate (sel : String) : LocatorResult :=
  { type := "css", locator := "locator(\x27" ++ sel ++ "\x27)",
    reliability := 60, description := "CSS selector - may be brittle" }

/-- The unconditional xpath candidate of `AnalyzePageTool.generateLocators`. -/
def xpathCandidate (el : ElementInfo) : LocatorResult :=
  { type := "xpath", locator := "locator(\"" ++ el.xpath ++ "\")",
    reliability := 40, description := "XPath - avoid unless necessary" }

/-- `el.ariaLabel || el.text || el.title`, the accessible name used by the
role rule of `AnalyzePageTool.generateLocators`. -/
def nameOf (el : ElementInfo) : Option String :=
  match truthyStr el.ariaLabel with
  | some s => some s
  | none =>
    match truthyStr el.text with
    | some s => some s
    | none => truthyStr el.title

/-- One `if (attribute) push(candidate)` rule: a singleton when the (truthy)
attribute is present, else nothing. -/
def optCandList (o : Option String) (f : String → LocatorResult) : List LocatorResult :=
  match o with
  | some s => [f s]
  | none => []

/-- The role rule of `AnalyzePageTool.generateLocators`: explicit-or-inferred
role, with the accessible name deciding between the 95 and 70 variants. -/
def roleSegment (el : ElementInfo) : List LocatorResult :=
  match jsOr el.role (inferRole el) with
  | some role =>
    (match nameOf el with
     | some name => [roleNamedCandidate role name]
     | none => [roleBareCandidate role])
  | none => []

/-- The text rule of `AnalyzePageTool.generateLocators`: visible text present
and the tag not in input/textarea. -/
def textSegment (el : ElementInfo) : List LocatorResult :=
  match truthyStr el.text with
  | some t =>
    if el.tagName = "input" ∨ el.tagName = "textarea" then [] else [textCandidate t]
  | none => []

/-- The css rule of `AnalyzePageTool.generateLocators`: only when the fallback
selector is non-empty and differs from the bare tag. -/
def cssSegment (el : ElementInfo) : List LocatorResult :=
  if el.selector ≠ "" ∧ el.selector ≠ el.tagName then [cssCandidate el.selector] else []

/-- `AnalyzePageTool.generateLocators` (dialect A, accessibility-first): the
candidate rules in source order; the xpath candidate is always pushed last. -/
def generateLocators (el : ElementInfo) : List LocatorResult :=
  optCandList (truthyStr el.testId) testIdCandidate
  ++ roleSegment el
  ++ optCandList (truthyStr el.ariaLabel) labelCandidate
  ++ optCandList (truthyStr el.placeholder) placeholderCandidate
  ++ textSegment el
  ++ optCandList (truthyStr el.id) idCandidate
  ++ cssSegment el
  ++ [xpathCandidate el]

/-- `AnalyzePageTool.rankLocators`: JS stable sort by descending reliability,
modelled by the stable insertion sort. -/
def rankLocators (locators : List LocatorResult) : List LocatorResult :=
  List.insertionSort (fun a b => b.reliability ≤ a.reliability) locators

/-- `AnalyzePageTool.describeElement`. -/
def describeElement (el : ElementInfo) : String :=
  let parts : List String :=
    (match truthyStr el.text with
     | some t => ["\"" ++ String.mk (t.data.take 30) ++ "\""]
     | none => [])
    ++ (match truthyStr el.placeholder with
        | some p => ["placeholder=\"" ++ p ++ "\""]
        | none => [])
    ++ (match truthyStr el.ariaLabel with
        | some a => ["aria-label=\"" ++ a ++ "\""]
        | none => [])
    ++ (match truthyStr el.type with
        | some ty => if ty = el.tagName then [] else ["type=" ++ ty]
        | none => [])
    ++ (match truthyStr el.name with
        | some n => ["name=\"" ++ n ++ "\""]
        | none => [])
    ++ ["<" ++ el.tagName ++ ">"]
  let joined := String.intercalate (" ") parts
  if joined = "" then el.tagName else joined

/-- One reported element of `AnalyzePageTool.execute`. -/
structure PageElement where
  element : String
  type : String
  locators : List LocatorResult
  recommended : String
deriving DecidableEq

/-- The element-type filter predicate of `AnalyzePageTool.execute`. -/
def matchesType (el : ElementInfo) (t : String) : Bool :=
  includesJS (lowerStr el.tagName) (lowerStr t)
  || (match el.type with
      | some ty => includesJS (lowerStr ty) (lowerStr t)
      | none => false)
  || (match el.role with
      | some r => includesJS (lowerStr r) (lowerStr t)
      | none => false)

/-- The `filtered` list of `AnalyzePageTool.execute`: keep elements matching
any supplied type, or everything when no non-empty filter is given. -/
def filteredElements (els : List ElementInfo) (elementTypes : Option (List String)) :
    List ElementInfo :=
  match elementTypes with
  | some ts =>
    if 0 < ts.length then els.filter (fun el => ts.any (fun t => matchesType el t)) else els
  | none => els

/-- Result shape of `AnalyzePageTool.execute` (browser-independent part). -/
structure AnalyzePageResult where
  totalElements : Nat
  returnedElements : Nat
  truncated : Bool
  elements : List PageElement
deriving DecidableEq

/-- `AnalyzePageTool.execute` on an extracted element list: filter by type,
compute the truncation flag, cap the reported list at `MAX_ELEMENTS`, and
build the per-element reports.  `totalElements` is `allElements.length` in the
source, i.e. the pre-filter count. -/
def analyzePageExecute (els : List ElementInfo) (elementTypes : Option (List String)) :
    AnalyzePageResult :=
  let filtered := filteredElements els elementTypes
  let truncated := MAX_ELEMENTS < filtered.length
  let limited := filtered.take MAX_ELEMENTS
  let elements := limited.map (fun el =>
    let ranked := (rankLocators (generateLocators el)).take MAX_LOCATORS_PER_ELEMENT
    { element := describeElement el
      type := lowerStr el.tagName
      locators := ranked
      recommended :=
        match ranked.head? with
        | some c => if c.locator = "" then "N/A" else c.locator
        | none => "N/A" : PageElement })
  { totalElements := els.length
    returnedElements := elements.length
    truncated := truncated
    elements := elements }

/-- The searchable text blob of `GetLocatorsTool.findMatchingElements`:
present (truthy) attributes joined with spaces, lowercased. -/
def searchBlob (el : ElementInfo) : String :=
  lowerStr (String.intercalate (" ")
    (([el.id, el.name, el.className, el.text, el.placeholder, el.ariaLabel,
       el.type, el.title, some el.tagName, el.role, el.testId].filterMap id).filter
      (fun s => !(s = ""))))

/-- JS `o?.toLowerCase().includes(kw)` for an optional attribute. -/
def optIncludes (o : Option String) (kw : String) : Bool :=
  match o with
  | some s => includesJS (lowerStr s) kw
  | none => false

/-- The per-element score loop of `GetLocatorsTool.findMatchingElements`:
for each keyword contained in the blob, add 1, then the exact-id, testId,
ariaLabel, text and placeholder bonuses. -/
def scoreElement (keywords : List String) (el : ElementInfo) : Nat :=
  let searchText := searchBlob el
  keywords.foldl (fun score keyword =>
    if includesJS searchText keyword then
      score + 1
        + (if el.id.map lowerStr = some keyword then 3 else 0)
        + (if optIncludes el.testId keyword then 3 else 0)
        + (if optIncludes el.ariaLabel keyword then 2 else 0)
        + (if optIncludes el.text keyword then 2 else 0)
        + (if optIncludes el.placeholder keyword then 2 else 0)
    else score) 0

/-- `GetLocatorsTool.findMatchingElements` on an extracted element list:
score every element against the whitespace-split lowercased description, keep
the strictly positive scores, sort by descending score (stable), and return
the elements. -/
def findMatchingElements (els : List ElementInfo) (description : String) :
    List ElementInfo :=
  let keywords := splitWS (lowerStr description)
  let scored := els.map (fun el => (el, scoreElement keywords el))
  (List.insertionSort (fun a b => b.2 ≤ a.2)
    (scored.filter (fun s => 0 < s.2))).map (fun s => s.1)

/-- The terminal tag-name locator of `GetLocatorsTool.generateSeleniumLocators`. -/
def seleniumTagNameLocator (el : ElementInfo) : SeleniumLocator :=
  { java := "By.tagName(\"" ++ el.tagName ++ "\")"
    python := "By.TAG_NAME, \"" ++ el.tagName ++ "\""
    csharp := "By.TagName(\"" ++ el.tagName ++ "\")" }

/-- `GetLocatorsTool.generateSeleniumLocators` (dialect B, attribute-first):
id, name, css, xpath, link text, first class name, then always the tag name. -/
def generateSeleniumLocators (el : ElementInfo) : List SeleniumLocator :=
  (match truthyStr el.id with
   | some i =>
     [{ java := "By.id(\"" ++ i ++ "\")"
        python := "By.ID, \"" ++ i ++ "\""
        csharp := "By.Id(\"" ++ i ++ "\")" }]
   | none => [])
  ++ (match truthyStr el.name with
      | some n =>
        [{ java := "By.name(\"" ++ n ++ "\")"
           python := "By.NAME, \"" ++ n ++ "\""
           csharp := "By.Name(\"" ++ n ++ "\")" }]
      | none => [])
  ++ (if el.selector ≠ "" then
        [{ java := "By.cssSelector(\"" ++ el.selector ++ "\")"
           python := "By.CSS_SELECTOR, \"" ++ el.selector ++ "\""
           csharp := "By.CssSelector(\"" ++ el.selector ++ "\")" }]
      else [])
  ++ (if el.xpath ≠ "" then
        [{ java := "By.xpath(\"" ++ el.xpath ++ "\")"
           python := "By.XPATH, \"" ++ el.xpath ++ "\""
           csharp := "By.XPath(\"" ++ el.xpath ++ "\")" }]
      else [])
  ++ (match truthyStr el.text with
      | some t =>
        if el.tagName = "a" then
          [{ java := "By.linkText(\"" ++ escape t ++ "\")"
             python := "By.LINK_TEXT, \"" ++ escape t ++ "\""
             csharp := "By.LinkText(\"" ++ escape t ++ "\")" }]
        else []
      | none => [])
  ++ (match truthyStr el.className with
      | some cn =>
        let firstClass := (cn.splitOn (" ")).headD ""
        if firstClass ≠ "" ∧ !(includesJS firstClass (":")) then
          [{ java := "By.className(\"" ++ firstClass ++ "\")"
             python := "By.CLASS_NAME, \"" ++ firstClass ++ "\""
             csharp := "By.ClassName(\"" ++ firstClass ++ "\")" }]
        else []
      | none => [])
  ++ [seleniumTagNameLocator el]

/-- `LocatorEngine.validateLocator`: the parse-and-count step against the live
page is taken as an input (`Except` models the JS try/catch); the function
itself is total, so a parse or resolution failure never escapes as a thrown
exception. -/
def validateLocator (res : Except String Nat) : ValidationResult :=
  match res with
  | Except.ok count =>
    let suggestions : List String :=
      if count = 0 then
        ["Element not found. Check if the page has loaded completely.",
         "Verify the locator syntax is correct."]
      else if 1 < count then
        ["Found " ++ toString count ++ " elements. Consider adding more specificity.",
         "Try using getByRole with name option for uniqueness."]
      else []
    { isValid := 0 < count
      matchCount := count
      isUnique := count == 1
      suggestions := suggestions }
  | Except.error msg =>
    { isValid := false
      matchCount := 0
      isUnique := false
      suggestions := ["Invalid locator syntax: " ++ msg] }

/-- Follows the claim wording for the escaping step: a single pass that
doubles each backslash, escapes each single quote, and leaves every other
character unchanged. -/
def escCharSpec (x : Char) : List Char :=
  if x = backslashChar then [backslashChar, backslashChar]
  else if x = quoteChar then [backslashChar, quoteChar]
  else [x]

/-- Follows the claim wording for role inference: button tag or input type
submit/button map to button, anchor to link, select to combobox, textarea to
textbox, input checkbox/radio/search/number to their roles, any other input
to textbox, img to img, and any other tag to no role. -/
def inferRoleSpec (el : ElementInfo) : Option String :=
  let tag := lowerStr el.tagName
  let ty : String := jsTypeKey el
  if tag = "button" ∨ (tag = "input" ∧ (ty = "submit" ∨ ty = "button")) then some "button"
  else if tag = "a" then some "link"
  else if tag = "select" then some "combobox"
  else if tag = "textarea" then some "textbox"
  else if tag = "input" ∧ ty = "checkbox" then some "checkbox"
  else if tag = "input" ∧ ty = "radio" then some "radio"
  else if tag = "input" ∧ ty = "search" then some "searchbox"
  else if tag = "input" ∧ ty = "number" then some "spinbutton"
  else if tag = "input" then some "textbox"
  else if tag = "img" then some "img"
  else none

/-- Follows the claim wording for the per-keyword bonus: +3 for an exact id
match, +3 if contained in testId, +2 each if contained in ariaLabel, visible
text, or placeholder. -/
def keywordBonus (el : ElementInfo) (kw : String) : Nat :=
  (if el.id.map lowerStr = some kw then 3 else 0)
  + (if optIncludes el.testId kw then 3 else 0)
  + (if optIncludes el.ariaLabel kw then 2 else 0)
  + (if optIncludes el.text kw then 2 else 0)
  + (if optIncludes el.placeholder kw then 2 else 0)

/-- Follows the claim wording for the total score: the sum, over the keywords
that are substrings of the searchable blob, of 1 plus the bonus. -/
def scoreSpec (keywords : List String) (el : ElementInfo) : Nat :=
  ((keywords.filter (fun kw => includesJS (searchBlob el) kw)).map
    (fun kw => 1 + keywordBonus el kw)).sum

/-- The fixed reliability table per candidate kind, for the kinds whose score
does not depend on anything beyond the kind label. -/
def kindReliability (kind : String) : Nat :=
  if kind = "testId" then 98
  else if kind = "label" then 90
  else if kind = "placeholder" then 85
  else if kind = "text" then 75
  else if kind = "id" then 90
  else if kind = "css" then 60
  else if kind = "xpath" then 40
  else 0

/-- The `<button data-testid="login-btn" aria-label="Login">Login</button>`
element record of the spec scenario (no id, no classes). -/
def loginButton : ElementInfo :=
  { tagName := "button", text := some ("Login"), ariaLabel := some ("Login"),
    testId := some ("login-btn"),
    xpath := "/html[1]/body[1]/button[1]", selector := "button" }

/-- A button with an accessible name only (role candidate gets a name). -/
def namedRoleButton : ElementInfo :=
  { tagName := "button", ariaLabel := some ("Go"),
    xpath := "/html[1]/body[1]/button[1]", selector := "button" }

/-- A button with no attributes at all (bare role candidate). -/
def plainButton : ElementInfo :=
  { tagName := "button", xpath := "/html[1]/body[1]/button[2]", selector := "button" }

/-- A bare anchor element. -/
def plainLink : ElementInfo :=
  { tagName := "a", xpath := "/html[1]/body[1]/a[1]", selector := "a" }

/-- A bare div element, outside the role-inference table. -/
def plainDiv : ElementInfo :=
  { tagName := "div", xpath := "/html[1]/body[1]/div[1]", selector := "div" }

instance : IsTotal LocatorResult (fun a b => b.reliability ≤ a.reliability) :=
  ⟨fun a b => Nat.le_total b.reliability a.reliability⟩

instance : IsTrans LocatorResult (fun a b => b.reliability ≤ a.reliability) :=
  ⟨fun _ _ _ hab hbc => Nat.le_trans hbc hab⟩

instance : IsTotal (ElementInfo × Nat) (fun a b => b.2 ≤ a.2) :=
  ⟨fun a b => Nat.le_total b.2 a.2⟩

instance : IsTrans (ElementInfo × Nat) (fun a b => b.2 ≤ a.2) :=
  ⟨fun _ _ _ hab hbc => Nat.le_trans hbc hab⟩

theorem replaceChar_append (c : Char) (r : List Char) (l₁ l₂ : List Char) :
    replaceChar c r (l₁ ++ l₂) = replaceChar c r l₁ ++ replaceChar c r l₂ := by
  induction l₁ with
  | nil => rfl
  | cons x xs ih => simp [replaceChar, ih]

theorem replaceChar_comp_eq_escCharSpec (l : List Char) :
    replaceChar quoteChar [backslashChar, quoteChar]
      (replaceChar backslashChar [backslashChar, backslashChar] l)
      = (l.map escCharSpec).flatten := by
  induction l with
  | nil => rfl
  | cons x xs ih =>
    have hqb : quoteChar ≠ backslashChar := by decide
    have hbq : backslashChar ≠ quoteChar := by decide
    by_cases hb : x = backslashChar
    · subst hb
      simp [replaceChar, replaceChar_append, escCharSpec, ih, hbq]
    · by_cases hq : x = quoteChar
      · subst hq
        simp [replaceChar, replaceChar_append, escCharSpec, ih, hqb]
      · simp [replaceChar, replaceChar_append, escCharSpec, ih, hb, hq]

/-- Claim C9: every string interpolated as literal text into a generated
locator expression goes through `escape`, which replaces every backslash with
a doubled backslash and every single quote with an escaped single quote, and
truncates the result to the 100-character bound used for extraction. -/
theorem escape_characterization (s : String) :
    escape s = String.mk ((s.data.map escCharSpec).flatten.take MAX_TEXT_LENGTH)
    ∧ (escape s).length ≤ MAX_TEXT_LENGTH
    ∧ MAX_TEXT_LENGTH = 100 := by
  refine ⟨?_, ?_, rfl⟩
  · simp [escape, replaceChar_comp_eq_escCharSpec]
  · show (String.mk _).length ≤ MAX_TEXT_LENGTH
    have hmk : ∀ (l : List Char), (String.mk l).length = l.length := fun _ => rfl
    rw [hmk, List.length_take]
    exact Nat.min_le_left _ _

/-- Claim C2: every `validateLocator` result satisfies
`isValid = (matchCount > 0)` and `isUnique = (matchCount == 1)`, and a parse
or resolution failure yields (without throwing) `isValid = false`,
`matchCount = 0`, `isUnique = false` with the error message surfaced as a
suggestion string. -/
theorem validateLocator_cardinality (res : Except String Nat) :
    ((validateLocator res).isValid = decide (0 < (validateLocator res).matchCount))
    ∧ ((validateLocator res).isUnique = ((validateLocator res).matchCount == 1))
    ∧ (∀ msg, res = Except.error msg →
        validateLocator res =
          { isValid := false, matchCount := 0, isUnique := false,
            suggestions := ["Invalid locator syntax: " ++ msg] }) := by
  refine ⟨?_, ?_, ?_⟩
  · cases res <;> simp [validateLocator]
  · cases res <;> simp [validateLocator]
  · intro msg h
    subst h
    rfl

/-- Witness for C2 at a concrete failing parse. -/
theorem validateLocator_cardinality_witness :
    validateLocator (Except.error ("boom")) =
      { isValid := false, matchCount := 0, isUnique := false,
        suggestions := ["Invalid locator syntax: " ++ "boom"] } :=
  (validateLocator_cardinality (Except.error ("boom"))).2.2 ("boom") rfl

/-- Claim C4: for every element record, dialect A (`generateLocators`) ends
with — hence always contains — the xpath candidate, and dialect B
(`generateSeleniumLocators`) ends with the terminal tag-name locator; both
candidate lists are therefore never empty. -/
theorem synthesize_totality (el : ElementInfo) :
    (generateLocators el).getLast? = some (xpathCandidate el)
    ∧ (generateSeleniumLocators el).getLast? = some (seleniumTagNameLocator el)
    ∧ generateLocators el ≠ []
    ∧ generateSeleniumLocators el ≠ [] := by
  refine ⟨?_, ?_, ?_, ?_⟩
  · simp only [generateLocators, ← List.append_assoc]
    exact List.getLast?_concat _
  · simp only [generateSeleniumLocators, ← List.append_assoc]
    exact List.getLast?_concat _
  · simp [generateLocators]
  · simp [generateSeleniumLocators]

/-- Claim C6: synthesize-then-rank on the login button emits the testId
candidate (reliability 98) first, the role-with-name candidate (95) second,
and the label candidate (reliability 90, inside the table range 88-90)
third. -/
theorem loginButton_top3 :
    ((rankLocators (generateLocators loginButton)).take 3).map
      (fun c => (c.type, c.reliability))
      = [("testId", 98), ("role", 95), ("label", 90)] := by
  decide

/-- Inserting into a list commutes with filtering on a fixed key value: the
new element lands in front of the equal-key elements already present. -/
theorem filter_key_orderedInsert {α : Type} (key : α → Nat) (s : Nat) (a : α)
    (l : List α) :
    (List.orderedInsert (fun x y => key y ≤ key x) a l).filter (fun x => key x == s)
      = if key a == s then a :: l.filter (fun x => key x == s)
        else l.filter (fun x => key x == s) := by
  induction l with
  | nil => simp [List.orderedInsert, List.filter_cons]
  | cons b t ih =>
    by_cases h : key b ≤ key a
    · simp only [List.orderedInsert, if_pos h, List.filter_cons]
    · simp only [List.orderedInsert, if_neg h, List.filter_cons, ih]
      by_cases has : key a = s
      · have hlt : key a < key b := Nat.lt_of_not_le h
        have hbs : ¬ key b = s := by omega
        simp [has, hbs]
      · simp [has]

/-- The stable descending-by-key sort leaves each equal-key fibre of the list
unchanged (ties keep their original order). -/
theorem filter_key_insertionSort {α : Type} (key : α → Nat) (s : Nat)
    (l : List α) :
    (List.insertionSort (fun x y => key y ≤ key x) l).filter (fun x => key x == s)
      = l.filter (fun x => key x == s) := by
  induction l with
  | nil => rfl
  | cons a t ih =>
    simp only [List.insertionSort]
    rw [filter_key_orderedInsert (fun x => key x) s a, ih, List.filter_cons]

theorem mem_optCandList {c : LocatorResult} {o : Option String}
    {f : String → LocatorResult} (h : c ∈ optCandList o f) : ∃ s, c = f s := by
  cases o with
  | none => simp [optCandList] at h
  | some s =>
    simp [optCandList] at h
    exact ⟨s, h⟩

theorem mem_roleSegment {c : LocatorResult} {el : ElementInfo}
    (h : c ∈ roleSegment el) :
    (∃ r n, c = roleNamedCandidate r n) ∨ (∃ r, c = roleBareCandidate r) := by
  unfold roleSegment at h
  cases hrole : jsOr el.role (inferRole el) with
  | none => rw [hrole] at h; simp at h
  | some role =>
    rw [hrole] at h
    cases hname : nameOf el with
    | none =>
      rw [hname] at h; simp at h
      exact Or.inr ⟨role, h⟩
    | some nm =>
      rw [hname] at h; simp at h
      exact Or.inl ⟨role, nm, h⟩

theorem mem_textSegment {c : LocatorResult} {el : ElementInfo}
    (h : c ∈ textSegment el) : ∃ t, c = textCandidate t := by
  unfold textSegment at h
  cases htext : truthyStr el.text with
  | none => rw [htext] at h; simp at h
  | some t =>
    rw [htext] at h
    by_cases htag : el.tagName = "input" ∨ el.tagName = "textarea"
    · simp [htag] at h
    · simp [htag] at h
      exact ⟨t, h⟩

theorem mem_cssSegment {c : LocatorResult} {el : ElementInfo}
    (h : c ∈ cssSegment el) : c = cssCandidate el.selector := by
  unfold cssSegment at h
  by_cases hsel : el.selector ≠ "" ∧ el.selector ≠ el.tagName
  · rw [if_pos hsel] at h
    simpa using h
  · rw [if_neg hsel] at h
    simp at h

theorem filter_optCandList (p : LocatorResult → Bool) (o : Option String)
    (f : String → LocatorResult) (hf : ∀ s, p (f s) = false) :
    (optCandList o f).filter p = [] := by
  cases o <;> simp [optCandList, hf]

theorem roleSegment_eq_nil {el : ElementInfo}
    (h : jsOr el.role (inferRole el) = none) : roleSegment el = [] := by
  simp [roleSegment, h]

theorem filter_roleSegment (p : LocatorResult → Bool) (el : ElementInfo)
    (h1 : ∀ r n, p (roleNamedCandidate r n) = false)
    (h2 : ∀ r, p (roleBareCandidate r) = false) :
    (roleSegment el).filter p = [] := by
  unfold roleSegment
  cases jsOr el.role (inferRole el) with
  | none => rfl
  | some role => cases nameOf el <;> simp [h1, h2]

theorem filter_textSegment (p : LocatorResult → Bool) (el : ElementInfo)
    (hf : ∀ s, p (textCandidate s) = false) :
    (textSegment el).filter p = [] := by
  rcases htext : truthyStr el.text with _ | t
  · simp [textSegment, htext]
  · simp [textSegment, htext, List.filter_cons, hf, apply_ite (List.filter p)]

theorem filter_cssSegment (p : LocatorResult → Bool) (el : ElementInfo)
    (hf : p (cssCandidate el.selector) = false) :
    (cssSegment el).filter p = [] := by
  unfold cssSegment
  split <;> simp [hf]

/-- Every candidate emitted by `generateLocators` is one of the nine explicit
candidate shapes. -/
theorem mem_generateLocators {el : ElementInfo} {c : LocatorResult}
    (hc : c ∈ generateLocators el) :
    (∃ t, c = testIdCandidate t) ∨ (∃ r n, c = roleNamedCandidate r n)
    ∨ (∃ r, c = roleBareCandidate r) ∨ (∃ s, c = labelCandidate s)
    ∨ (∃ s, c = placeholderCandidate s) ∨ (∃ s, c = textCandidate s)
    ∨ (∃ s, c = idCandidate s) ∨ (∃ s, c = cssCandidate s)
    ∨ c = xpathCandidate el := by
  simp only [generateLocators, List.mem_append] at hc
  rcases hc with ((((((h | h) | h) | h) | h) | h) | h) | h
  · obtain ⟨t, rfl⟩ := mem_optCandList h
    exact Or.inl ⟨t, rfl⟩
  · rcases mem_roleSegment h with ⟨r, n, rfl⟩ | ⟨r, rfl⟩
    · exact Or.inr (Or.inl ⟨r, n, rfl⟩)
    · exact Or.inr (Or.inr (Or.inl ⟨r, rfl⟩))
  · obtain ⟨l, rfl⟩ := mem_optCandList h
    exact Or.inr (Or.inr (Or.inr (Or.inl ⟨l, rfl⟩)))
  · obtain ⟨p, rfl⟩ := mem_optCandList h
    exact Or.inr (Or.inr (Or.inr (Or.inr (Or.inl ⟨p, rfl⟩))))
  · obtain ⟨t, rfl⟩ := mem_textSegment h
    exact Or.inr (Or.inr (Or.inr (Or.inr (Or.inr (Or.inl ⟨t, rfl⟩)))))
  · obtain ⟨i, rfl⟩ := mem_optCandList h
    exact Or.inr (Or.inr (Or.inr (Or.inr (Or.inr (Or.inr (Or.inl ⟨i, rfl⟩))))))
  · exact Or.inr (Or.inr (Or.inr (Or.inr (Or.inr (Or.inr (Or.inr
      (Or.inl ⟨el.selector, mem_cssSegment h⟩)))))))
  · simp at h
    exact Or.inr (Or.inr (Or.inr (Or.inr (Or.inr (Or.inr (Or.inr (Or.inr h)))))))

/-- Counterexample for C5: two candidates both carrying the kind label
`role` — the role-with-name candidate of `namedRoleButton` and the bare-role
candidate of `plainButton` — have different reliability scores (95 vs 70). -/
theorem rank_same_kind_reliability_cex :
    roleNamedCandidate ("button") ("Go") ∈ generateLocators namedRoleButton
    ∧ roleBareCandidate ("button") ∈ generateLocators plainButton
    ∧ (roleNamedCandidate ("button") ("Go")).type = (roleBareCandidate ("button")).type
    ∧ (roleNamedCandidate ("button") ("Go")).reliability
        ≠ (roleBareCandidate ("button")).reliability := by
  decide

/-- Claim C5 (amended): `rank` sorts by reliability in non-increasing order
and is stable (each equal-reliability fibre keeps its emission order); any two
candidates with the same kind label have the same reliability score, except
the `role` kind, which scores 95 with an accessible name and 70 without. -/
theorem rank_sorted_stable (ls : List LocatorResult) :
    List.Pairwise (fun a b => b.reliability ≤ a.reliability) (rankLocators ls)
    ∧ (∀ s, (rankLocators ls).filter (fun c => c.reliability == s)
          = ls.filter (fun c => c.reliability == s))
    ∧ (∀ el c, c ∈ generateLocators el → c.type ≠ "role" →
        c.reliability = kindReliability c.type)
    ∧ (∀ el c, c ∈ generateLocators el → c.type = "role" →
        c.reliability = 95 ∨ c.reliability = 70) := by
  refine ⟨?_, ?_, ?_, ?_⟩
  · exact List.sorted_insertionSort _ ls
  · intro s
    exact filter_key_insertionSort (fun c => c.reliability) s ls
  · intro el c hc hne
    rcases mem_generateLocators hc with ⟨t, rfl⟩ | ⟨r, n, rfl⟩ | ⟨r, rfl⟩ | ⟨s', rfl⟩
      | ⟨s', rfl⟩ | ⟨s', rfl⟩ | ⟨s', rfl⟩ | ⟨s', rfl⟩ | rfl
    · rfl
    · exact absurd rfl hne
    · exact absurd rfl hne
    · rfl
    · rfl
    · rfl
    · rfl
    · rfl
    · rfl
  · intro el c hc htype
    rcases mem_generateLocators hc with ⟨t, rfl⟩ | ⟨r, n, rfl⟩ | ⟨r, rfl⟩ | ⟨s', rfl⟩
      | ⟨s', rfl⟩ | ⟨s', rfl⟩ | ⟨s', rfl⟩ | ⟨s', rfl⟩ | rfl
    · simp [testIdCandidate] at htype
    · exact Or.inl rfl
    · exact Or.inr rfl
    · simp [labelCandidate] at htype
    · simp [placeholderCandidate] at htype
    · simp [textCandidate] at htype
    · simp [idCandidate] at htype
    · simp [cssCandidate] at htype
    · simp [xpathCandidate] at htype

/-- Witness for C5 at concrete inputs: a concrete ranked list is sorted and
tie-stable, a non-role candidate matches the kind table, and a role candidate
takes one of the two role scores. -/
theorem rank_sorted_stable_witness :
    List.Pairwise (fun a b => b.reliability ≤ a.reliability)
      (rankLocators (generateLocators plainButton))
    ∧ (rankLocators (generateLocators plainButton)).filter
        (fun c => c.reliability == 70)
        = (generateLocators plainButton).filter (fun c => c.reliability == 70)
    ∧ (xpathCandidate plainButton).reliability
        = kindReliability (xpathCandidate plainButton).type
    ∧ ((roleBareCandidate ("button")).reliability = 95
        ∨ (roleBareCandidate ("button")).reliability = 70) :=
  ⟨(rank_sorted_stable (generateLocators plainButton)).1,
   (rank_sorted_stable (generateLocators plainButton)).2.1 70,
   (rank_sorted_stable []).2.2.1 plainButton (xpathCandidate plainButton)
     (by decide) (by decide),
   (rank_sorted_stable []).2.2.2 plainButton (roleBareCandidate ("button"))
     (by decide) (by decide)⟩

/-- Counterexample for C3: with a type filter that discards one of two
extracted elements, `totalElements` reports the pre-filter count (2), not the
post-filter count (1). -/
theorem analyzePage_total_cex :
    ¬ ((analyzePageExecute [plainButton, plainLink] (some [("button")])).totalElements
        = (filteredElements [plainButton, plainLink] (some [("button")])).length) := by
  decide

/-- Claim C3 (amended): `truncated` is true iff the post-filter count exceeds
the cap of 50, `returnedElements` is the post-filter count clamped to 50, and
`totalElements` is the pre-filter extracted count (which coincides with the
post-filter count exactly when no type filter is applied). -/
theorem analyzePage_counts (els : List ElementInfo)
    (elementTypes : Option (List String)) :
    ((analyzePageExecute els elementTypes).truncated = true
      ↔ MAX_ELEMENTS < (filteredElements els elementTypes).length)
    ∧ (analyzePageExecute els elementTypes).returnedElements
        = min (filteredElements els elementTypes).length MAX_ELEMENTS
    ∧ (analyzePageExecute els elementTypes).totalElements = els.length
    ∧ filteredElements els none = els := by
  refine ⟨?_, ?_, rfl, rfl⟩
  · simp [analyzePageExecute]
  · show (List.map _ ((filteredElements els elementTypes).take MAX_ELEMENTS)).length = _
    rw [List.length_map, List.length_take]
    omega

/-- The source's role lookup chain (roleMap, then `inputRoles` for inputs)
agrees with the spec's ordering of the same table, for any tag and input-type
key. -/
theorem roleLookup_eq (tag K : String) :
    (if tag = "button" then some "button"
     else if tag = "a" then some "link"
     else if tag = "select" then some "combobox"
     else if tag = "textarea" then some "textbox"
     else if tag = "img" then some "img"
     else if tag = "input" then some (inputRoleLookup K)
     else none)
    = (if tag = "button" ∨ (tag = "input" ∧ (K = "submit" ∨ K = "button"))
         then some "button"
       else if tag = "a" then some "link"
       else if tag = "select" then some "combobox"
       else if tag = "textarea" then some "textbox"
       else if tag = "input" ∧ K = "checkbox" then some "checkbox"
       else if tag = "input" ∧ K = "radio" then some "radio"
       else if tag = "input" ∧ K = "search" then some "searchbox"
       else if tag = "input" ∧ K = "number" then some "spinbutton"
       else if tag = "input" then some "textbox"
       else if tag = "img" then some "img"
       else none) := by
  by_cases hin : tag = "input"
  · subst hin
    simp only [inputRoleLookup]
    simp
    split_ifs <;> simp_all
  · simp [hin]

/-- Claim C7: `inferRole` realises exactly the fixed lookup stated by the
spec, and an element with no explicit role and no inferred role gets no
role-kind candidate. -/
theorem inferRole_table (el : ElementInfo) :
    inferRole el = inferRoleSpec el
    ∧ (truthyStr el.role = none → inferRole el = none →
        (generateLocators el).filter (fun c => c.type == "role") = []) := by
  constructor
  · simp only [inferRole, inferRoleSpec]
    exact roleLookup_eq (lowerStr el.tagName) (jsTypeKey el)
  · intro hrole hinfer
    have hor : jsOr el.role (inferRole el) = none := by
      simp [jsOr, hrole, hinfer]
    simp only [generateLocators, List.filter_append, roleSegment_eq_nil hor]
    rw [filter_optCandList _ _ _ (fun s => rfl),
        filter_optCandList _ _ _ (fun s => rfl),
        filter_optCandList _ _ _ (fun s => rfl),
        filter_optCandList _ _ _ (fun s => rfl),
        filter_textSegment _ _ (fun s => rfl),
        filter_cssSegment _ _ rfl]
    rfl

/-- Witness for C7 at a concrete unmapped element: the div infers no role and
gets no role candidate. -/
theorem inferRole_table_witness :
    inferRole plainDiv = inferRoleSpec plainDiv
    ∧ (generateLocators plainDiv).filter (fun c => c.type == "role") = [] :=
  ⟨(inferRole_table plainDiv).1, (inferRole_table plainDiv).2 (by decide) (by decide)⟩

/-- Claim C8: a text-kind candidate is emitted exactly when the element has
(truthy) visible text and its tag is neither input nor textarea, and every
text candidate carries reliability 75. -/
theorem textCandidate_iff (el : ElementInfo) :
    (generateLocators el).filter (fun c => c.type == "text")
      = (match truthyStr el.text with
         | some t =>
           if el.tagName = "input" ∨ el.tagName = "textarea" then []
           else [textCandidate t]
         | none => [])
    ∧ (∀ t, (textCandidate t).reliability = 75) := by
  refine ⟨?_, fun _ => rfl⟩
  simp only [generateLocators, List.filter_append]
  rw [filter_optCandList _ _ _ (fun s => rfl),
      filter_roleSegment _ _ (fun r n => rfl) (fun r => rfl),
      filter_optCandList _ _ _ (fun s => rfl),
      filter_optCandList _ _ _ (fun s => rfl),
      filter_optCandList _ _ _ (fun s => rfl),
      filter_cssSegment _ _ rfl,
      show List.filter (fun c => c.type == "text") [xpathCandidate el] = [] from rfl]
  simp only [List.nil_append, List.append_nil]
  unfold textSegment
  cases htext : truthyStr el.text with
  | none => rfl
  | some t =>
    by_cases htag : el.tagName = "input" ∨ el.tagName = "textarea"
    · simp [htag]
    · simp [htag, textCandidate]

/-- The sequential guarded additions of the score loop equal the claim's
sum-over-matching-keywords formulation. -/
theorem scoreElement_eq_scoreSpec (kws : List String) (el : ElementInfo) :
    scoreElement kws el = scoreSpec kws el := by
  suffices h : ∀ (l : List String) (init : Nat),
      l.foldl (fun score keyword =>
        if includesJS (searchBlob el) keyword then
          score + 1
            + (if el.id.map lowerStr = some keyword then 3 else 0)
            + (if optIncludes el.testId keyword then 3 else 0)
            + (if optIncludes el.ariaLabel keyword then 2 else 0)
            + (if optIncludes el.text keyword then 2 else 0)
            + (if optIncludes el.placeholder keyword then 2 else 0)
        else score) init = init + scoreSpec l el by
    simpa [scoreElement] using h kws 0
  intro l
  induction l with
  | nil =>
    intro init
    simp [scoreSpec]
  | cons kw t ih =>
    intro init
    by_cases hinc : includesJS (searchBlob el) kw = true
    · simp only [List.foldl_cons, if_pos hinc, ih, scoreSpec, List.filter_cons, hinc,
        if_true, List.map_cons, List.sum_cons, keywordBonus]
      omega
    · have hinc' : includesJS (searchBlob el) kw = false := by
        simpa using hinc
      simp only [List.foldl_cons, hinc', if_false, Bool.false_eq_true, ih, scoreSpec,
        List.filter_cons, List.map_cons, List.sum_cons]

/-- Every pair surviving the score filter and the sort carries exactly the
score of its element. -/
theorem snd_eq_score {kws : List String} {els : List ElementInfo}
    {p : ElementInfo × Nat}
    (hp : p ∈ List.insertionSort (fun a b : ElementInfo × Nat => b.2 ≤ a.2)
      ((els.map (fun el => (el, scoreElement kws el))).filter (fun s => 0 < s.2))) :
    p.2 = scoreElement kws p.1 := by
  rw [List.mem_insertionSort, List.mem_filter] at hp
  obtain ⟨hm, _⟩ := hp
  obtain ⟨el, _, rfl⟩ := List.mem_map.mp hm
  rfl

/-- The pair-level stability instance used by the matcher. -/
theorem filter_snd_insertionSort (s : Nat) (l : List (ElementInfo × Nat)) :
    (List.insertionSort (fun a b : ElementInfo × Nat => b.2 ≤ a.2) l).filter
        (fun p => p.2 == s)
      = l.filter (fun p => p.2 == s) :=
  filter_key_insertionSort (fun p => p.2) s l

/-- Claim C1: the matcher returns exactly the elements with positive score —
the score being the claim's sum of +1 per blob-matching keyword plus the
id/testId/ariaLabel/text/placeholder bonuses — ordered by descending score,
with equal-score ties keeping the original extraction order. -/
theorem findMatching_characterization (els : List ElementInfo)
    (description : String) :
    (∀ el, el ∈ findMatchingElements els description
        ↔ el ∈ els ∧ 0 < scoreSpec (splitWS (lowerStr description)) el)
    ∧ List.Pairwise (fun a b =>
        scoreSpec (splitWS (lowerStr description)) b
          ≤ scoreSpec (splitWS (lowerStr description)) a)
        (findMatchingElements els description)
    ∧ (∀ s, (findMatchingElements els description).filter
          (fun el => scoreSpec (splitWS (lowerStr description)) el == s)
        = (els.filter
            (fun el => 0 < scoreSpec (splitWS (lowerStr description)) el)).filter
            (fun el => scoreSpec (splitWS (lowerStr description)) el == s)) := by
  simp only [← scoreElement_eq_scoreSpec]
  refine ⟨?_, ?_, ?_⟩
  · intro el
    simp only [findMatchingElements]
    constructor
    · intro h
      obtain ⟨p, hp, rfl⟩ := List.mem_map.mp h
      have hp2 := snd_eq_score hp
      rw [List.mem_insertionSort, List.mem_filter] at hp
      obtain ⟨hps, hpos⟩ := hp
      obtain ⟨el', hel', rfl⟩ := List.mem_map.mp hps
      refine ⟨hel', ?_⟩
      simpa using hpos
    · rintro ⟨hel, hpos⟩
      refine List.mem_map.mpr
        ⟨(el, scoreElement (splitWS (lowerStr description)) el), ?_, rfl⟩
      rw [List.mem_insertionSort, List.mem_filter]
      exact ⟨List.mem_map.mpr ⟨el, hel, rfl⟩, by simpa using hpos⟩
  · have hs := List.sorted_insertionSort
      (fun a b : ElementInfo × Nat => b.2 ≤ a.2)
      ((els.map (fun el =>
        (el, scoreElement (splitWS (lowerStr description)) el))).filter
        (fun s => 0 < s.2))
    simp only [findMatchingElements]
    rw [List.pairwise_map]
    refine List.Pairwise.imp_of_mem ?_ hs
    intro p q hp hq hle
    rwa [snd_eq_score hp, snd_eq_score hq] at hle
  · intro s
    simp only [findMatchingElements]
    rw [List.filter_map]
    have hcong : List.filter
        ((fun el => scoreElement (splitWS (lowerStr description)) el == s)
          ∘ (fun p : ElementInfo × Nat => p.1))
        (List.insertionSort (fun a b : ElementInfo × Nat => b.2 ≤ a.2)
          ((els.map (fun el =>
            (el, scoreElement (splitWS (lowerStr description)) el))).filter
            (fun s => 0 < s.2)))
        = List.filter (fun p : ElementInfo × Nat => p.2 == s)
          (List.insertionSort (fun a b : ElementInfo × Nat => b.2 ≤ a.2)
            ((els.map (fun el =>
              (el, scoreElement (splitWS (lowerStr description)) el))).filter
              (fun s => 0 < s.2))) :=
      List.filter_congr (fun p hp => by
        simp only [Function.comp_apply]
        rw [snd_eq_score hp])
    rw [hcong, filter_snd_insertionSort s, List.filter_filter, List.filter_map,
      List.map_map, List.filter_filter]
    simp [Function.comp_def]

/-- The empty string is a substring of every string. -/
theorem includesJS_empty (s : String) : includesJS s ("") = true := by
  show isSubChars ("").data s.data = true
  cases s.data with
  | nil => rfl
  | cons c cs => rfl

/-- ASCII lowercasing fixes whitespace characters. -/
theorem toLower_of_ws {c : Char} (h : isWsChar c = true) : Char.toLower c = c := by
  simp only [isWsChar, Bool.or_eq_true, beq_iff_eq] at h
  rcases h with ((((h | h) | h) | h) | h) | h <;> subst h <;> decide

/-- On all-whitespace input started with an empty accumulator, every fragment
produced by the split worker is the empty string. -/
theorem splitWSGo_all_empty (cs : List Char)
    (hall : ∀ c ∈ cs, isWsChar c = true) :
    ∀ b, ∀ t ∈ splitWSGo [] b cs, t = "" := by
  induction cs with
  | nil =>
    intro b t ht
    simp only [splitWSGo, List.mem_singleton] at ht
    exact ht
  | cons c cs ih =>
    intro b t ht
    have hc := hall c (List.mem_cons_self c cs)
    have hall' : ∀ x ∈ cs, isWsChar x = true :=
      fun x hx => hall x (List.mem_cons_of_mem c hx)
    rw [splitWSGo, hc, if_pos rfl] at ht
    cases b with
    | true =>
      rw [if_pos rfl] at ht
      exact ih hall' true t ht
    | false =>
      rw [if_neg Bool.false_ne_true] at ht
      rcases List.mem_cons.mp ht with h | h
      · simpa using h
      · exact ih hall' true t h

/-- The split worker never returns an empty fragment list. -/
theorem splitWSGo_ne_nil (cs : List Char) : ∀ acc b, splitWSGo acc b cs ≠ [] := by
  induction cs with
  | nil => intro acc b; simp [splitWSGo]
  | cons c cs ih =>
    intro acc b
    by_cases hc : isWsChar c = true
    · rw [splitWSGo, hc, if_pos rfl]
      cases b with
      | true =>
        rw [if_pos rfl]
        exact ih acc true
      | false =>
        rw [if_neg Bool.false_ne_true]
        simp
    · have hc' : isWsChar c = false := by simpa using hc
      rw [splitWSGo, hc', if_neg Bool.false_ne_true]
      exact ih (c :: acc) false

/-- If every keyword is contained in the blob and there is at least one
keyword, the element's score is positive. -/
theorem scoreElement_pos {kws : List String} {el : ElementInfo}
    (hne : kws ≠ [])
    (hall : ∀ kw ∈ kws, includesJS (searchBlob el) kw = true) :
    0 < scoreElement kws el := by
  rw [scoreElement_eq_scoreSpec]
  cases kws with
  | nil => exact absurd rfl hne
  | cons k t =>
    have hk := hall k (List.mem_cons_self k t)
    simp only [scoreSpec, List.filter_cons, hk, if_true, List.map_cons,
      List.sum_cons]
    omega

/-- Counterexample for C10: the all-whitespace description (a single space)
splits into two empty-string keywords, not a single one. -/
theorem splitWS_whitespace_cex :
    splitWS (lowerStr (" ")) = ["", ""]
    ∧ splitWS (lowerStr (" ")) ≠ [""] := by
  decide

/-- Claim C10 (amended): for an empty or all-whitespace description, the
split produces only empty-string keywords (one for the empty description, two
for an all-whitespace one), the empty string is a substring of every blob,
and the matcher returns every extracted element, each with a positive
score. -/
theorem emptyQuery_matchesAll (description : String) (els : List ElementInfo)
    (hws : ∀ c ∈ description.data, isWsChar c = true) :
    (∀ kw ∈ splitWS (lowerStr description), kw = "")
    ∧ splitWS (lowerStr description) ≠ []
    ∧ (findMatchingElements els description).Perm els
    ∧ (∀ el ∈ els, 0 < scoreElement (splitWS (lowerStr description)) el) := by
  have hlowdata : (lowerStr description).data = description.data.map Char.toLower := rfl
  have hlower : ∀ c ∈ (lowerStr description).data, isWsChar c = true := by
    rw [hlowdata]
    intro c hc
    obtain ⟨c0, hc0, rfl⟩ := List.mem_map.mp hc
    rw [toLower_of_ws (hws c0 hc0)]
    exact hws c0 hc0
  have hkwe : ∀ kw ∈ splitWS (lowerStr description), kw = "" :=
    splitWSGo_all_empty _ hlower false
  have hkwne : splitWS (lowerStr description) ≠ [] :=
    splitWSGo_ne_nil _ [] false
  have hpos : ∀ el ∈ els, 0 < scoreElement (splitWS (lowerStr description)) el := by
    intro el _
    refine scoreElement_pos hkwne ?_
    intro kw hkw
    rw [hkwe kw hkw]
    exact includesJS_empty _
  refine ⟨hkwe, hkwne, ?_, hpos⟩
  simp only [findMatchingElements]
  have hfil : ((els.map (fun el =>
      (el, scoreElement (splitWS (lowerStr description)) el))).filter
      (fun s => 0 < s.2))
      = els.map (fun el => (el, scoreElement (splitWS (lowerStr description)) el)) :=
    List.filter_eq_self.mpr (fun p hp => by
      obtain ⟨el, hel, rfl⟩ := List.mem_map.mp hp
      simpa using hpos el hel)
  rw [hfil]
  have hperm := (List.perm_insertionSort
    (fun a b : ElementInfo × Nat => b.2 ≤ a.2)
    (els.map (fun el =>
      (el, scoreElement (splitWS (lowerStr description)) el)))).map
    (fun s : ElementInfo × Nat => s.1)
  simpa [List.map_map, Function.comp_def] using hperm

/-- Witness for C10 at the single-space description and a one-element page. -/
theorem emptyQuery_matchesAll_witness :
    (findMatchingElements [plainButton] (" ")).Perm [plainButton]
    ∧ 0 < scoreElement (splitWS (lowerStr (" "))) plainButton :=
  ⟨(emptyQuery_matchesAll (" ") [plainButton] (by decide)).2.2.1,
   (emptyQuery_matchesAll (" ") [plainButton] (by decide)).2.2.2 plainButton
     (List.mem_singleton.mpr rfl)⟩
